import Mathlib

/-!
Verification of the change-detection and conditional-delivery core of
`ariel.py`, a Flask server that serves a watched Mermaid file to a polling
browser page.

The embedding models:
* the MD5 content fingerprint (`hashlib.md5(content.encode()).hexdigest()`)
  as a full executable MD5 over the UTF-8 bytes of the content;
* the `/mermaid` endpoint (`mermaid`) as a pure function from the state of
  the watched file, the global `config` dictionary, and the optional
  `If-None-Match` request header, to a response plus the updated `config`;
* the `main` startup sequence (`mainStartup`) including the `argparse`
  handling of the positional `file` argument.
-/

set_option maxRecDepth 4000

/-! ## Bytes and UTF-8 encoding (Python `str.encode()`) -/

/-- UTF-8 encoding of a single Unicode scalar value, as a list of byte
values, mirroring what Python's `str.encode()` produces per character. -/
def utf8EncodeChar (c : Char) : List Nat :=
  let n := c.toNat
  if n < 128 then [n]
  else if n < 2048 then [192 + n / 64, 128 + n % 64]
  else if n < 65536 then [224 + n / 4096, 128 + n / 64 % 64, 128 + n % 64]
  else [240 + n / 262144, 128 + n / 4096 % 64, 128 + n / 64 % 64, 128 + n % 64]

/-- The UTF-8 bytes of a string: Python's `content.encode()`. -/
def strBytes (s : String) : List Nat :=
  s.data.flatMap utf8EncodeChar

/-! ## MD5 (the implementation behind `hashlib.md5`)

A direct executable transcription of RFC 1321 over `Nat` byte values, with
all 32-bit arithmetic made explicit via `% 4294967296`. -/

/-- Addition modulo 2^32. -/
def add32 (a b : Nat) : Nat := (a + b) % 4294967296

/-- Bitwise complement on 32-bit values. -/
def not32 (x : Nat) : Nat := Nat.xor x 4294967295

/-- Left rotation of a 32-bit value by `s` positions (`0 < s < 32`). -/
def rotl32 (x s : Nat) : Nat := (x <<< s + x >>> (32 - s)) % 4294967296

/-- The 64 MD5 round constants `K[i] = floor(2^32 * abs(sin(i+1)))`. -/
def md5K : List Nat :=
  [0xd76aa478, 0xe8c7b756, 0x242070db, 0xc1bdceee,
   0xf57c0faf, 0x4787c62a, 0xa8304613, 0xfd469501,
   0x698098d8, 0x8b44f7af, 0xffff5bb1, 0x895cd7be,
   0x6b901122, 0xfd987193, 0xa679438e, 0x49b40821,
   0xf61e2562, 0xc040b340, 0x265e5a51, 0xe9b6c7aa,
   0xd62f105d, 0x02441453, 0xd8a1e681, 0xe7d3fbc8,
   0x21e1cde6, 0xc33707d6, 0xf4d50d87, 0x455a14ed,
   0xa9e3e905, 0xfcefa3f8, 0x676f02d9, 0x8d2a4c8a,
   0xfffa3942, 0x8771f681, 0x6d9d6122, 0xfde5380c,
   0xa4beea44, 0x4bdecfa9, 0xf6bb4b60, 0xbebfbc70,
   0x289b7ec6, 0xeaa127fa, 0xd4ef3085, 0x04881d05,
   0xd9d4d039, 0xe6db99e5, 0x1fa27cf8, 0xc4ac5665,
   0xf4292244, 0x432aff97, 0xab9423a7, 0xfc93a039,
   0x655b59c3, 0x8f0ccc92, 0xffeff47d, 0x85845dd1,
   0x6fa87e4f, 0xfe2ce6e0, 0xa3014314, 0x4e0811a1,
   0xf7537e82, 0xbd3af235, 0x2ad7d2bb, 0xeb86d391]

/-- The 64 per-round left-rotation amounts. -/
def md5S : List Nat :=
  [7, 12, 17, 22, 7, 12, 17, 22, 7, 12, 17, 22, 7, 12, 17, 22,
   5, 9, 14, 20, 5, 9, 14, 20, 5, 9, 14, 20, 5, 9, 14, 20,
   4, 11, 16, 23, 4, 11, 16, 23, 4, 11, 16, 23, 4, 11, 16, 23,
   6, 10, 15, 21, 6, 10, 15, 21, 6, 10, 15, 21, 6, 10, 15, 21]

/-- The nonlinear function of round `i` applied to state words `b c d`. -/
def md5F (i b c d : Nat) : Nat :=
  if i < 16 then Nat.lor (Nat.land b c) (Nat.land (not32 b) d)
  else if i < 32 then Nat.lor (Nat.land d b) (Nat.land (not32 d) c)
  else if i < 48 then Nat.xor b (Nat.xor c d)
  else Nat.xor c (Nat.lor b (not32 d))

/-- The message-word index used by round `i`. -/
def md5G (i : Nat) : Nat :=
  if i < 16 then i
  else if i < 32 then (5 * i + 1) % 16
  else if i < 48 then (3 * i + 5) % 16
  else (7 * i) % 16

/-- One MD5 round: `i` is the round number, `M` the 16 message words of the
current block, and the state is `(A, B, C, D)`. -/
def md5Step (M : List Nat) (st : Nat × Nat × Nat × Nat) (i : Nat) :
    Nat × Nat × Nat × Nat :=
  let a := st.1
  let b := st.2.1
  let c := st.2.2.1
  let d := st.2.2.2
  let f := add32 (add32 (add32 (md5F i b c d) a) (md5K.getD i 0))
    (M.getD (md5G i) 0)
  (d, add32 b (rotl32 f (md5S.getD i 0)), b, c)

/-- The 16 little-endian 32-bit words of one 64-byte block. -/
def blockWords (block : List Nat) : List Nat :=
  (List.range 16).map fun j =>
    block.getD (4 * j) 0 + 256 * block.getD (4 * j + 1) 0 +
      65536 * block.getD (4 * j + 2) 0 + 16777216 * block.getD (4 * j + 3) 0

/-- Process one 64-byte block: 64 rounds, then add the input state back in
modulo 2^32. -/
def md5ProcessBlock (st : Nat × Nat × Nat × Nat) (block : List Nat) :
    Nat × Nat × Nat × Nat :=
  let r := (List.range 64).foldl (md5Step (blockWords block)) st
  (add32 st.1 r.1, add32 st.2.1 r.2.1, add32 st.2.2.1 r.2.2.1,
   add32 st.2.2.2 r.2.2.2)

/-- Little-endian serialization of a 64-bit length field into 8 bytes. -/
def le64 (v : Nat) : List Nat :=
  [v % 256, v / 256 % 256, v / 65536 % 256, v / 16777216 % 256,
   v / 4294967296 % 256, v / 1099511627776 % 256,
   v / 281474976710656 % 256, v / 72057594037927936 % 256]

/-- MD5 padding: a `0x80` byte, zeros to 56 mod 64, then the bit length of
the message, little-endian in 8 bytes. -/
def md5Pad (msg : List Nat) : List Nat :=
  let n := msg.length
  msg ++ 128 :: List.replicate ((119 - n % 64) % 64) 0 ++ le64 (8 * n)

/-- Split a byte list into 64-byte chunks, driven by a structural fuel so
that the definition reduces inside the kernel. -/
def toBlocksAux (fuel : Nat) (l : List Nat) : List (List Nat) :=
  match fuel, l with
  | 0, _ => []
  | _, [] => []
  | Nat.succ f, l => l.take 64 :: toBlocksAux f (l.drop 64)

/-- Split a byte list into 64-byte chunks. -/
def toBlocks (l : List Nat) : List (List Nat) :=
  toBlocksAux l.length l

/-- The MD5 initial state `(A, B, C, D)`. -/
def md5Init : Nat × Nat × Nat × Nat :=
  (0x67452301, 0xefcdab89, 0x98badcfe, 0x10325476)

/-- The final MD5 state for a byte message: pad, then fold the block
function over all 64-byte blocks. -/
def md5Compute (msg : List Nat) : Nat × Nat × Nat × Nat :=
  (toBlocks (md5Pad msg)).foldl md5ProcessBlock md5Init

/-- Little-endian serialization of one 32-bit state word into 4 bytes. -/
def le32 (v : Nat) : List Nat :=
  [v % 256, v / 256 % 256, v / 65536 % 256, v / 16777216 % 256]

/-- The 16 digest bytes of a final MD5 state. -/
def digestBytes (st : Nat × Nat × Nat × Nat) : List Nat :=
  le32 st.1 ++ le32 st.2.1 ++ le32 st.2.2.1 ++ le32 st.2.2.2

/-- Lowercase hexadecimal digit for a value below 16. -/
def hexDigit (n : Nat) : Char :=
  Char.ofNat (if n < 10 then 48 + n else 87 + n)

/-- Two lowercase hex characters per byte, in order. -/
def hexChars : List Nat → List Char
  | [] => []
  | b :: t => hexDigit (b / 16 % 16) :: hexDigit (b % 16) :: hexChars t

/-- The value of `hashlib.md5(bytes).hexdigest()`: the 32-character
lowercase hex digest of a byte message. -/
def md5Hex (msg : List Nat) : String :=
  String.mk (hexChars (digestBytes (md5Compute msg)))

/-- The ETag the endpoint computes for a given file content:
`'"' + hashlib.md5(content.encode()).hexdigest() + '"'`. -/
def etagOf (content : String) : String :=
  "\"" ++ md5Hex (strBytes content) ++ "\""

theorem md5_vector_empty : md5Hex (strBytes "") = "d41d8cd98f00b204e9800998ecf8427e" := by
  decide

theorem md5_vector_abc : md5Hex (strBytes "abc") = "900150983cd24fb0d6963f7d28e17f72" := by
  decide

/-! ## HTTP date formatting (`werkzeug.http.http_date`)

`http_date` renders an epoch timestamp as an RFC 2822 GMT date, e.g.
`Thu, 01 Jan 1970 00:00:00 GMT`. The handler passes
`datetime.fromtimestamp(st_mtime).timestamp()`, which round-trips back to
the epoch timestamp, modelled here as whole seconds. -/

/-- Two-digit zero-padded decimal rendering. -/
def pad2 (n : Nat) : String :=
  if n < 10 then "0" ++ toString n else toString n

/-- English three-letter weekday name, Monday-first. -/
def weekdayName (d : Nat) : String :=
  match d with
  | 0 => "Mon" | 1 => "Tue" | 2 => "Wed" | 3 => "Thu"
  | 4 => "Fri" | 5 => "Sat" | _ => "Sun"

/-- English three-letter month name, 1-based. -/
def monthName (m : Nat) : String :=
  match m with
  | 1 => "Jan" | 2 => "Feb" | 3 => "Mar" | 4 => "Apr"
  | 5 => "May" | 6 => "Jun" | 7 => "Jul" | 8 => "Aug"
  | 9 => "Sep" | 10 => "Oct" | 11 => "Nov" | _ => "Dec"

/-- Proleptic-Gregorian civil date `(year, month, day)` from days since the
Unix epoch (nonnegative), by the standard era decomposition. -/
def civilFromDays (days : Nat) : Nat × Nat × Nat :=
  let z := days + 719468
  let era := z / 146097
  let doe := z % 146097
  let yoe := (doe - doe / 1460 + doe / 36524 - doe / 146096) / 365
  let y := yoe + era * 400
  let doy := doe - (365 * yoe + yoe / 4 - yoe / 100)
  let mp := (5 * doy + 2) / 153
  let d := doy - (153 * mp + 2) / 5 + 1
  let m := if mp < 10 then mp + 3 else mp - 9
  (if m ≤ 2 then y + 1 else y, m, d)

/-- RFC 2822 GMT date string for an epoch timestamp in seconds:
`werkzeug.http.http_date`. -/
def httpDate (t : Nat) : String :=
  let days := t / 86400
  let secs := t % 86400
  let c := civilFromDays days
  weekdayName ((days + 3) % 7) ++ ", " ++ pad2 c.2.2 ++ " " ++
    monthName c.2.1 ++ " " ++ toString c.1 ++ " " ++
    pad2 (secs / 3600) ++ ":" ++ pad2 (secs % 3600 / 60) ++ ":" ++
    pad2 (secs % 60) ++ " GMT"

/-! ## JSON serialization (`flask.jsonify`)

`jsonify` serializes with `json.dumps(..., ensure_ascii=True,
sort_keys=True, separators=(",", ":"))` and appends a newline. The two
payload dictionaries used by the endpoint have their keys already in sorted
order, so the bodies below are their exact serializations. -/

/-- Four lowercase hex digits of a value below 65536. -/
def hex4 (n : Nat) : String :=
  String.mk [hexDigit (n / 4096 % 16), hexDigit (n / 256 % 16),
    hexDigit (n / 16 % 16), hexDigit (n % 16)]

/-- JSON escaping of one character, as `json.dumps` with `ensure_ascii`
produces it: named escapes for the common controls, `\uXXXX` (with
surrogate pairs above the BMP) for other controls and all non-ASCII. -/
def jsonEscapeChar (c : Char) : String :=
  if c = '"' then "\\\""
  else if c = '\\' then "\\\\"
  else if c = '\n' then "\\n"
  else if c = '\r' then "\\r"
  else if c = '\t' then "\\t"
  else if c.toNat = 8 then "\\b"
  else if c.toNat = 12 then "\\f"
  else if c.toNat < 32 then "\\u" ++ hex4 c.toNat
  else if c.toNat < 127 then String.mk [c]
  else if c.toNat < 65536 then "\\u" ++ hex4 c.toNat
  else "\\u" ++ hex4 (55296 + (c.toNat - 65536) / 1024) ++
    "\\u" ++ hex4 (56320 + (c.toNat - 65536) % 1024)

/-- A JSON string literal for `s`. -/
def jsonStr (s : String) : String :=
  "\"" ++ String.join (s.data.map jsonEscapeChar) ++ "\""

/-- Body of `jsonify({'error': msg})`. -/
def errorBody (msg : String) : String :=
  "\x7b\"error\":" ++ jsonStr msg ++ "\x7d\n"

/-- Body of `jsonify({'content': content, 'modified': http_date(mtime)})`. -/
def contentBody (content : String) (mtime : Nat) : String :=
  "\x7b\"content\":" ++ jsonStr content ++ ",\"modified\":" ++
    jsonStr (httpDate mtime) ++ "\x7d\n"

/-! ## The global `config` dictionary and the filesystem -/

/-- The global `config` dictionary: the watched path plus the diagnostic
last-snapshot fields, with `last_modified` as an epoch timestamp. -/
structure Config where
  mmd_file : String
  last_modified : Option Nat
  last_content : Option String
deriving DecidableEq, Repr

/-- The initial value of `config` at module load. -/
def configInit : Config :=
  { mmd_file := "diagram.mmd", last_modified := none, last_content := none }

/-- State of the watched file at the moment one request handles it, as the
handler observes it: missing; existing but raising on `open`/`read` (with
`str(e)`); readable but raising on `stat` (with the content already read
and `str(e)`); or fully readable with content and modification time. -/
inductive FsState where
  | missing
  | readError (exc : String)
  | statError (content : String) (exc : String)
  | ok (content : String) (mtime : Nat)
deriving DecidableEq, Repr

/-- An HTTP response of the endpoint: status code, body text, and the
`ETag`, `Last-Modified` and `Cache-Control` headers the handler sets
(`none` when a header is not set on that path). -/
structure Response where
  status : Nat
  body : String
  etag : Option String
  lastModified : Option String
  cacheControl : Option String
deriving DecidableEq, Repr

/-- Python's `if if_none_match and if_none_match == etag` condition: the
header is treated as present only when non-`None` and non-empty (truthy),
and then compared for string equality against the current ETag. -/
def truthyEq (if_none_match : Option String) (etag : String) : Bool :=
  match if_none_match with
  | none => false
  | some s => if s = "" then false else s == etag

/-! ## The `/mermaid` endpoint -/

/-- The `/mermaid` handler. `fs` is what the filesystem at
`cfg.mmd_file` yields during this request (existence check, read, stat),
`if_none_match` is `request.headers.get('If-None-Match')`. Returns the
response together with the updated global `config`. -/
def mermaid (fs : FsState) (cfg : Config) (if_none_match : Option String) :
    Response × Config :=
  match fs with
  | FsState.missing =>
    ({ status := 404,
       body := errorBody ("Mermaid file not found: " ++ cfg.mmd_file),
       etag := none, lastModified := none, cacheControl := none }, cfg)
  | FsState.readError e =>
    ({ status := 500, body := errorBody ("Failed to read file: " ++ e),
       etag := none, lastModified := none, cacheControl := none }, cfg)
  | FsState.statError _ e =>
    ({ status := 500,
       body := errorBody ("Failed to read file stats: " ++ e),
       etag := none, lastModified := none, cacheControl := none }, cfg)
  | FsState.ok content mtime =>
    let etag := etagOf content
    if truthyEq if_none_match etag then
      ({ status := 304, body := "", etag := some etag,
         lastModified := some (httpDate mtime), cacheControl := none }, cfg)
    else
      ({ status := 200, body := contentBody content mtime,
         etag := some etag, lastModified := some (httpDate mtime),
         cacheControl := some "no-cache" },
       { cfg with last_modified := some mtime, last_content := some content })

/-! ## The `main` startup sequence

`argparse` is declared with `'file', nargs=1`, so `args.file` is bound to a
*list* of one string. `main` stores that list into `config['mmd_file']` and
then evaluates `Path(args.file)`, which accepts only `str` or
`os.PathLike` arguments. -/

/-- A Python value that may be passed where a path is expected: either a
string or a list of strings (what `nargs=1` produces). -/
inductive PyPathArg where
  | str (s : String)
  | list (l : List String)
deriving DecidableEq, Repr

/-- The message of the `TypeError` CPython raises when `os.fspath` receives
a list. -/
def fspathTypeErrorMsg : String :=
  "expected str, bytes or os.PathLike object, not list"

/-- The `os.fspath` coercion as invoked by the `Path(...)` constructor: accepts a
string, raises `TypeError` on a list. -/
def fspath : PyPathArg → Except String String
  | PyPathArg.str s => Except.ok s
  | PyPathArg.list _ => Except.error fspathTypeErrorMsg

/-- Python's `repr` of a list of strings, used by the f-string
`f'Error: Mermaid file not found: \x7bargs.file\x7d'`. -/
def pyListRepr (l : List String) : String :=
  "[" ++ String.intercalate ", " (l.map fun s => "'" ++ s ++ "'") ++ "]"

/-- Outcome of running `main` up to (and excluding) `app.run`: an unhandled
exception killing the process with a traceback (exit code 1), the intended
`sys.exit(1)` after printing the missing-file message, or reaching
`app.run` (binding the listener) with the resulting `config`. -/
inductive StartupResult where
  | typeError (msg : String)
  | exitMissing (code : Nat) (msg : String)
  | serve (cfg_mmd_file : PyPathArg) (host : String) (port : Nat)
deriving DecidableEq, Repr

/-- The `main` entry point after argument parsing: `fileArg` is the single
positional argument value, `pathExists` the filesystem's existence
predicate. `args.file` is the one-element list `[fileArg]` because of
`nargs=1`; it is stored into `config['mmd_file']` and then passed to
`Path(...)`, whose `os.fspath` call raises `TypeError` on a list. -/
def mainStartup (fileArg : String) (host : String) (port : Nat)
    (pathExists : String → Bool) : StartupResult :=
  let args_file : PyPathArg := PyPathArg.list [fileArg]
  match fspath args_file with
  | Except.error m => StartupResult.typeError m
  | Except.ok p =>
    if pathExists p then StartupResult.serve args_file host port
    else
      StartupResult.exitMissing 1
        ("Error: Mermaid file not found: " ++ pyListRepr [fileArg])

/-! ## Helper lemmas about the fingerprint and the header check -/

theorem hexChars_length (l : List Nat) : (hexChars l).length = 2 * l.length := by
  induction l with
  | nil => rfl
  | cons b t ih => simp [hexChars, ih]; ring

theorem md5Hex_length (msg : List Nat) : (md5Hex msg).length = 32 := by
  have h : (digestBytes (md5Compute msg)).length = 16 := by
    simp [digestBytes, le32]
  simp [md5Hex, String.length, hexChars_length, h]

theorem etagOf_length (c : String) : (etagOf c).length = 34 := by
  simp [etagOf, String.length_append, md5Hex_length]
  rfl

theorem etagOf_ne_empty (c : String) : etagOf c ≠ "" := by
  intro h
  have := etagOf_length c
  rw [h] at this
  simp [String.length] at this

/-- The Python condition `if_none_match and if_none_match == etag`, applied
to the never-empty ETag of the endpoint, holds exactly when the header is
present and equal to that ETag. -/
theorem truthyEq_etag (t : Option String) (c : String) :
    truthyEq t (etagOf c) = decide (t = some (etagOf c)) := by
  cases t with
  | none => simp [truthyEq]
  | some s =>
    simp only [truthyEq]
    by_cases hs : s = ""
    · subst hs
      simp [Ne.symm (etagOf_ne_empty c)]
    · simp only [if_neg hs]
      by_cases he : s = etagOf c
      · simp [he]
      · simp [he]

/-- On a readable file, the handler always attaches the content fingerprint
as the `ETag` header, on the 304 path and on the 200 path alike. -/
theorem mermaid_ok_etag (c : String) (m : Nat) (cfg : Config)
    (t : Option String) :
    (mermaid (FsState.ok c m) cfg t).1.etag = some (etagOf c) := by
  simp only [mermaid]
  split <;> rfl

/-- On a readable file the status is decided purely by comparing the
client token to the current content's fingerprint. -/
theorem mermaid_ok_status (c : String) (m : Nat) (cfg : Config)
    (t : Option String) :
    (mermaid (FsState.ok c m) cfg t).1.status =
      if t = some (etagOf c) then 304 else 200 := by
  simp only [mermaid, truthyEq_etag]
  by_cases h : t = some (etagOf c) <;> simp [h]

/-- C1: for every request where the watched file is readable, the response
status is 304 exactly when the client's `If-None-Match` token is present
and equals the fingerprint of the current content, and 200 in every other
case. -/
theorem mermaid_not_modified_iff_token_matches (c : String) (m : Nat)
    (cfg : Config) (t : Option String) :
    (mermaid (FsState.ok c m) cfg t).1.status =
      if t = some (etagOf c) then 304 else 200 :=
  mermaid_ok_status c m cfg t

/-- C2 counterexample: with the spec's own example content and no client
token, the handler answers 200 but the body is not the raw file content
(it is the JSON envelope `jsonify` builds). -/
theorem mermaid_body_not_raw_counterexample :
    (mermaid (FsState.ok "graph TD; A-->B" 0) configInit none).1.status = 200 ∧
    (mermaid (FsState.ok "graph TD; A-->B" 0) configInit none).1.body ≠
      "graph TD; A-->B" := by
  constructor
  · rfl
  · decide

/-- C2 (amended): when the file is readable and the client token is absent
or unequal to the current fingerprint, the handler answers 200 with body
`jsonify({'content': content, 'modified': http_date(mtime)})` — the file
content carried verbatim as the `content` field of a JSON envelope, not as
the raw body — and with headers carrying the new fingerprint (`ETag`), the
modification timestamp (`Last-Modified`), and `Cache-Control: no-cache`. -/
theorem mermaid_full_response_shape (c : String) (m : Nat) (cfg : Config)
    (t : Option String) (h : t ≠ some (etagOf c)) :
    (mermaid (FsState.ok c m) cfg t).1 =
      { status := 200, body := contentBody c m, etag := some (etagOf c),
        lastModified := some (httpDate m),
        cacheControl := some "no-cache" } := by
  simp only [mermaid, truthyEq_etag]
  simp [h]

/-- Witness for the amended C2 theorem at the spec's example content. -/
theorem mermaid_full_response_shape_witness :
    (none : Option String) ≠ some (etagOf "graph TD; A-->B") ∧
    (mermaid (FsState.ok "graph TD; A-->B" 0) configInit none).1 =
      { status := 200, body := contentBody "graph TD; A-->B" 0,
        etag := some (etagOf "graph TD; A-->B"),
        lastModified := some (httpDate 0),
        cacheControl := some "no-cache" } :=
  ⟨by simp,
   mermaid_full_response_shape "graph TD; A-->B" 0 configInit none (by simp)⟩

/-- C3: if a request on content `c` produced a 200 response whose `ETag`
header is `T`, then a later request presenting `T` while the content is
still byte-identical (any modification time, any diagnostic state) yields
a 304 response with an empty body. -/
theorem mermaid_token_roundtrip (c : String) (m m2 : Nat)
    (cfg cfg2 : Config) (t : Option String) (T : String)
    (_h200 : (mermaid (FsState.ok c m) cfg t).1.status = 200)
    (hT : (mermaid (FsState.ok c m) cfg t).1.etag = some T) :
    (mermaid (FsState.ok c m2) cfg2 (some T)).1.status = 304 ∧
    (mermaid (FsState.ok c m2) cfg2 (some T)).1.body = "" := by
  have hTe : T = etagOf c := by
    have := mermaid_ok_etag c m cfg t
    rw [hT] at this
    exact Option.some_inj.mp this
  subst hTe
  simp [mermaid, truthyEq_etag]

/-- Witness for C3: the first 200 response on the spec's example content
carries its fingerprint, and replaying that fingerprint at a later
modification time yields 304 with an empty body. -/
theorem mermaid_token_roundtrip_witness :
    ((mermaid (FsState.ok "graph TD; A-->B" 0) configInit none).1.status =
        200 ∧
      (mermaid (FsState.ok "graph TD; A-->B" 0) configInit none).1.etag =
        some (etagOf "graph TD; A-->B")) ∧
    ((mermaid (FsState.ok "graph TD; A-->B" 5) configInit
        (some (etagOf "graph TD; A-->B"))).1.status = 304 ∧
      (mermaid (FsState.ok "graph TD; A-->B" 5) configInit
        (some (etagOf "graph TD; A-->B"))).1.body = "") :=
  ⟨⟨rfl, rfl⟩,
   mermaid_token_roundtrip "graph TD; A-->B" 0 5 configInit configInit none
     (etagOf "graph TD; A-->B") rfl rfl⟩

/-- C4: the 304-versus-200 decision is independent of the modification
timestamp and of the stored diagnostic state: on byte-identical content the
status agrees across any two timestamps and diagnostic states; a request
carrying the old content's own fingerprint is answered 304 at every
timestamp; and whenever the current fingerprint differs from the presented
token, the answer is a full 200 at every timestamp. -/
theorem mermaid_decision_timestamp_independent (c cOld : String)
    (m1 m2 : Nat) (cfg1 cfg2 : Config) (t : Option String) :
    ((mermaid (FsState.ok c m1) cfg1 t).1.status =
      (mermaid (FsState.ok c m2) cfg2 t).1.status) ∧
    ((mermaid (FsState.ok cOld m1) cfg1 (some (etagOf cOld))).1.status =
        304 ∧
      (mermaid (FsState.ok cOld m2) cfg2 (some (etagOf cOld))).1.status =
        304) ∧
    (etagOf c ≠ etagOf cOld →
      (mermaid (FsState.ok c m1) cfg1 (some (etagOf cOld))).1.status =
          200 ∧
        (mermaid (FsState.ok c m2) cfg2 (some (etagOf cOld))).1.status =
          200) := by
  refine ⟨?_, ⟨?_, ?_⟩, fun hne => ?_⟩
  · rw [mermaid_ok_status, mermaid_ok_status]
  · rw [mermaid_ok_status, if_pos rfl]
  · rw [mermaid_ok_status, if_pos rfl]
  · have hneg : ¬(some (etagOf cOld) = some (etagOf c)) := fun h =>
      hne (Option.some_inj.mp h).symm
    exact ⟨by rw [mermaid_ok_status, if_neg hneg],
      by rw [mermaid_ok_status, if_neg hneg]⟩

/-- Witness for C4 on the spec's example pair of contents, whose
fingerprints differ. -/
theorem mermaid_decision_timestamp_independent_witness :
    etagOf "graph TD; A-->C" ≠ etagOf "graph TD; A-->B" ∧
    (mermaid (FsState.ok "graph TD; A-->C" 7) configInit
        (some (etagOf "graph TD; A-->B"))).1.status = 200 ∧
    (mermaid (FsState.ok "graph TD; A-->C" 9) configInit
        (some (etagOf "graph TD; A-->B"))).1.status = 200 :=
  have hne : etagOf "graph TD; A-->C" ≠ etagOf "graph TD; A-->B" := by
    decide
  ⟨hne,
   (mermaid_decision_timestamp_independent "graph TD; A-->C"
      "graph TD; A-->B" 7 9 configInit configInit none).2.2 hne⟩

/-- C5: every 304 response has an empty body and still carries the current
fingerprint and the modification timestamp in its `ETag` and
`Last-Modified` headers; only the readable-file case can answer 304. -/
theorem mermaid_not_modified_headers (fs : FsState) (cfg : Config)
    (t : Option String)
    (h : (mermaid fs cfg t).1.status = 304) :
    (mermaid fs cfg t).1.body = "" ∧
    ∃ c m, fs = FsState.ok c m ∧
      (mermaid fs cfg t).1.etag = some (etagOf c) ∧
      (mermaid fs cfg t).1.lastModified = some (httpDate m) := by
  cases fs with
  | missing => simp [mermaid] at h
  | readError e => simp [mermaid] at h
  | statError c e => simp [mermaid] at h
  | ok c m =>
    refine ⟨?_, c, m, rfl, ?_, ?_⟩ <;>
      · simp only [mermaid] at h ⊢
        split at h <;> simp_all

/-- Witness for C5 at a concrete 304 exchange. -/
theorem mermaid_not_modified_headers_witness :
    (mermaid (FsState.ok "graph TD; A-->B" 3) configInit
        (some (etagOf "graph TD; A-->B"))).1.status = 304 ∧
    ((mermaid (FsState.ok "graph TD; A-->B" 3) configInit
        (some (etagOf "graph TD; A-->B"))).1.body = "" ∧
      ∃ c m, FsState.ok "graph TD; A-->B" 3 = FsState.ok c m ∧
        (mermaid (FsState.ok "graph TD; A-->B" 3) configInit
            (some (etagOf "graph TD; A-->B"))).1.etag = some (etagOf c) ∧
        (mermaid (FsState.ok "graph TD; A-->B" 3) configInit
            (some (etagOf "graph TD; A-->B"))).1.lastModified =
          some (httpDate m)) :=
  have h : (mermaid (FsState.ok "graph TD; A-->B" 3) configInit
      (some (etagOf "graph TD; A-->B"))).1.status = 304 := by decide
  ⟨h, mermaid_not_modified_headers (FsState.ok "graph TD; A-->B" 3)
      configInit (some (etagOf "graph TD; A-->B")) h⟩

/-- C6: a missing watched file is answered 404 with the descriptive
`jsonify` error body naming the configured file; a read failure and a stat
failure are answered 500 with descriptive error bodies; and on every
filesystem state the handler returns one of the statuses 200, 304, 404,
500 — it never escapes with an exception. -/
theorem mermaid_error_handling (cfg : Config) (t : Option String)
    (e c : String) :
    (mermaid FsState.missing cfg t).1.status = 404 ∧
    (mermaid FsState.missing cfg t).1.body =
      errorBody ("Mermaid file not found: " ++ cfg.mmd_file) ∧
    (mermaid (FsState.readError e) cfg t).1.status = 500 ∧
    (mermaid (FsState.readError e) cfg t).1.body =
      errorBody ("Failed to read file: " ++ e) ∧
    (mermaid (FsState.statError c e) cfg t).1.status = 500 ∧
    (mermaid (FsState.statError c e) cfg t).1.body =
      errorBody ("Failed to read file stats: " ++ e) ∧
    ∀ fs : FsState, (mermaid fs cfg t).1.status = 200 ∨
      (mermaid fs cfg t).1.status = 304 ∨
      (mermaid fs cfg t).1.status = 404 ∨
      (mermaid fs cfg t).1.status = 500 := by
  refine ⟨rfl, rfl, rfl, rfl, rfl, rfl, fun fs => ?_⟩
  cases fs with
  | missing => simp [mermaid]
  | readError e2 => simp [mermaid]
  | statError c2 e2 => simp [mermaid]
  | ok c2 m2 =>
    simp only [mermaid]
    split <;> simp

/-- C8: the diagnostic last-snapshot fields of `config` never influence a
response: for the same filesystem state, the same watched path and the
same request header, any two values of `last_modified`/`last_content`
produce identical responses. -/
theorem mermaid_ignores_cached_snapshot (fs : FsState) (t : Option String)
    (mf : String) (lm1 lm2 : Option Nat) (lc1 lc2 : Option String) :
    (mermaid fs (Config.mk mf lm1 lc1) t).1 =
      (mermaid fs (Config.mk mf lm2 lc2) t).1 := by
  cases fs with
  | missing => rfl
  | readError e => rfl
  | statError c e => rfl
  | ok c m =>
    simp only [mermaid]
    split <;> rfl

/-! ## The fingerprint is deterministic but cannot be injective -/

theorem add32_lt (a b : Nat) : add32 a b < 4294967296 :=
  Nat.mod_lt _ (by decide)

/-- All four words of the state stay below 2^32. -/
def stLt (st : Nat × Nat × Nat × Nat) : Prop :=
  st.1 < 4294967296 ∧ st.2.1 < 4294967296 ∧ st.2.2.1 < 4294967296 ∧
    st.2.2.2 < 4294967296

theorem md5ProcessBlock_lt (st : Nat × Nat × Nat × Nat)
    (block : List Nat) : stLt (md5ProcessBlock st block) :=
  ⟨add32_lt _ _, add32_lt _ _, add32_lt _ _, add32_lt _ _⟩

theorem md5Fold_lt (blocks : List (List Nat)) (st : Nat × Nat × Nat × Nat)
    (h : stLt st) : stLt (blocks.foldl md5ProcessBlock st) := by
  induction blocks generalizing st with
  | nil => exact h
  | cons b bs ih => exact ih _ (md5ProcessBlock_lt _ _)

theorem md5Compute_lt (msg : List Nat) : stLt (md5Compute msg) :=
  md5Fold_lt _ _ ⟨by decide, by decide, by decide, by decide⟩

/-- The MD5 state of a string's bytes, packaged with its 2^32 bounds: the
fingerprint of the endpoint is a function of this bounded quadruple, which
lives in a finite type. -/
def md5FinDigest (c : String) :
    Fin 4294967296 × Fin 4294967296 × Fin 4294967296 × Fin 4294967296 :=
  (⟨(md5Compute (strBytes c)).1, (md5Compute_lt (strBytes c)).1⟩,
   ⟨(md5Compute (strBytes c)).2.1, (md5Compute_lt (strBytes c)).2.1⟩,
   ⟨(md5Compute (strBytes c)).2.2.1, (md5Compute_lt (strBytes c)).2.2.1⟩,
   ⟨(md5Compute (strBytes c)).2.2.2, (md5Compute_lt (strBytes c)).2.2.2⟩)

/-- C7 counterexample: the fingerprint is not injective on contents. The
ETag is a function of the 128-bit MD5 state, which ranges over a finite
type, while there are infinitely many content strings, so two distinct
contents must share a fingerprint. -/
theorem etagOf_not_injective :
    ¬ (∀ c1 c2 : String, c1 ≠ c2 → etagOf c1 ≠ etagOf c2) := by
  intro hinj
  obtain ⟨x, y, hne, heq⟩ := Finite.exists_ne_map_eq_of_infinite md5FinDigest
  have e1 : (md5Compute (strBytes x)).1 = (md5Compute (strBytes y)).1 :=
    congrArg (fun q => q.1.val) heq
  have e2 : (md5Compute (strBytes x)).2.1 = (md5Compute (strBytes y)).2.1 :=
    congrArg (fun q => q.2.1.val) heq
  have e3 :
      (md5Compute (strBytes x)).2.2.1 = (md5Compute (strBytes y)).2.2.1 :=
    congrArg (fun q => q.2.2.1.val) heq
  have e4 :
      (md5Compute (strBytes x)).2.2.2 = (md5Compute (strBytes y)).2.2.2 :=
    congrArg (fun q => q.2.2.2.val) heq
  have prodext : ∀ p q : Nat × Nat × Nat × Nat, p.1 = q.1 → p.2.1 = q.2.1 →
      p.2.2.1 = q.2.2.1 → p.2.2.2 = q.2.2.2 → p = q := by
    rintro ⟨a1, b1, c1, d1⟩ ⟨a2, b2, c2, d2⟩ h1 h2 h3 h4
    simp_all
  have hst : md5Compute (strBytes x) = md5Compute (strBytes y) :=
    prodext _ _ e1 e2 e3 e4
  exact hinj x y hne (by unfold etagOf md5Hex; rw [hst])

/-- C7 (amended): the fingerprint is deterministic — it depends only on
the encoded content bytes — and is always a 34-character token (a quoted
32-hex-digit MD5 digest), which is why it cannot be injective on the
infinitely many possible contents. -/
theorem etagOf_deterministic_fixed_width (c1 c2 : String) :
    (strBytes c1 = strBytes c2 → etagOf c1 = etagOf c2) ∧
    (etagOf c1).length = 34 :=
  ⟨fun h => by unfold etagOf md5Hex; rw [h], etagOf_length c1⟩

/-- Witness for the amended C7 theorem: recomputation on identical bytes
reproduces the fingerprint, of width 34. -/
theorem etagOf_deterministic_fixed_width_witness :
    strBytes "graph TD; A-->B" = strBytes "graph TD; A-->B" ∧
    etagOf "graph TD; A-->B" = etagOf "graph TD; A-->B" ∧
    (etagOf "graph TD; A-->B").length = 34 :=
  ⟨rfl,
   (etagOf_deterministic_fixed_width "graph TD; A-->B" "graph TD; A-->B").1
     rfl,
   (etagOf_deterministic_fixed_width "graph TD; A-->B" "graph TD; A-->B").2⟩

/-- C9: for every invocation — whatever the positional path argument,
host, port, and whatever the filesystem says about the path's existence —
`main` dies with the `TypeError` raised by `Path(args.file)` on the
one-element list `argparse` produced, never reaches the intended
missing-file `sys.exit(1)` message, and never reaches `app.run`. -/
theorem mainStartup_always_type_error (f host : String) (port : Nat)
    (pathExists : String → Bool) :
    mainStartup f host port pathExists =
      StartupResult.typeError fspathTypeErrorMsg ∧
    (∀ msg, mainStartup f host port pathExists ≠
      StartupResult.exitMissing 1 msg) ∧
    (∀ a h2 p2, mainStartup f host port pathExists ≠
      StartupResult.serve a h2 p2) := by
  refine ⟨rfl, fun msg h => ?_, fun a h2 p2 h => ?_⟩ <;>
    simp [mainStartup, fspath] at h

/-- C10: the diagnostic snapshot in `config` is left untouched by every
304 response — indeed by every response that is not a 200 — and on the 200
path it is set to exactly the current modification time and content. -/
theorem mermaid_config_frame (fs : FsState) (cfg : Config)
    (t : Option String) :
    ((mermaid fs cfg t).1.status = 304 → (mermaid fs cfg t).2 = cfg) ∧
    ((mermaid fs cfg t).1.status ≠ 200 → (mermaid fs cfg t).2 = cfg) ∧
    (∀ c m, fs = FsState.ok c m → (mermaid fs cfg t).1.status = 200 →
      (mermaid fs cfg t).2 = Config.mk cfg.mmd_file (some m) (some c)) := by
  cases fs with
  | missing =>
    exact ⟨fun _ => rfl, fun _ => rfl, fun c m h => by cases h⟩
  | readError e =>
    exact ⟨fun _ => rfl, fun _ => rfl, fun c m h => by cases h⟩
  | statError c0 e =>
    exact ⟨fun _ => rfl, fun _ => rfl, fun c m h => by cases h⟩
  | ok c m =>
    simp only [mermaid]
    split
    · refine ⟨fun _ => rfl, fun _ => rfl, fun c2 m2 h2 h200 => ?_⟩
      simp at h200
    · refine ⟨fun h => by simp at h, fun h => absurd rfl h,
        fun c2 m2 h2 _ => ?_⟩
      injection h2 with hc hm
      subst hc
      subst hm
      rfl

/-- Witness for C10 at a concrete 304 exchange: the diagnostic state of
the initial `config` survives unchanged. -/
theorem mermaid_config_frame_witness :
    (mermaid (FsState.ok "graph TD; A-->B" 11) configInit
        (some (etagOf "graph TD; A-->B"))).1.status = 304 ∧
    (mermaid (FsState.ok "graph TD; A-->B" 11) configInit
        (some (etagOf "graph TD; A-->B"))).2 = configInit :=
  have h : (mermaid (FsState.ok "graph TD; A-->B" 11) configInit
      (some (etagOf "graph TD; A-->B"))).1.status = 304 := by decide
  ⟨h, (mermaid_config_frame (FsState.ok "graph TD; A-->B" 11) configInit
      (some (etagOf "graph TD; A-->B"))).1 h⟩
